/-
Verification of the pycloudlib lifecycle abstraction against its source.

Shallow embedding of:
  * pycloudlib/gce/cloud.py    (GCE launch and operation polling)
  * pycloudlib/ec2/cloud.py    (EC2 launch, snapshot, get_or_create_vpc)
  * pycloudlib/lxd/instance.py (LXD instance lifecycle and status parsing)

External collaborators (the boto3/google API clients and the lxc CLI) are
modelled as explicit state or injected result sequences; text parsing is
modelled at the character-list level so that the regex-scan behaviour of
`re.findall` is captured faithfully.  Definitions come first, then the
supporting lemmas and the claim theorems.
-/
import Mathlib

namespace Pycloudlib

/-! ## GCE: long-running-operation polling (`GCE._wait_for_operation`)

The Python loop is

```
while True:
    time.sleep(5)
    result = self.compute.zoneOperations().get(...).execute()
    if result[status] == DONE:
        if error in result:
            raise Exception(result[error])
        return result
```

(key and string literals shown unquoted).  Backend responses are modelled as a
sequence `poll : Nat → OperationResult`
(the result of the k-th `zoneOperations().get(...)` call).  The loop itself has
no deadline, so it is embedded with explicit fuel: `none` means the fuel ran
out while the loop was still polling (the Python loop is still running).
-/

/-- One response of `zoneOperations().get(...).execute()`: a `status` field and
an optional `error` field (`error = some e` models the key `error` being
present in the result dict). -/
structure OperationResult where
  status : String
  error : Option String
  deriving DecidableEq, Repr

/-- An instance handle a GCE launch could have returned; `GCE.launch` never
constructs one (the Python function has no return statement). -/
structure GCEHandle where
  name : String
  deriving DecidableEq, Repr

namespace GCE

/-- Fuel-indexed embedding of `GCE._wait_for_operation`, polling from index `k`.
`none`: fuel exhausted with the loop still running.  `some (Except.error e)`:
the loop raised an exception carrying the error field.  `some (Except.ok r)`:
the loop returned `r`. -/
def waitForOperationFuel (poll : Nat → OperationResult) :
    Nat → Nat → Option (Except String OperationResult)
  | 0, _ => none
  | fuel + 1, k =>
      let result := poll k
      if result.status = "DONE" then
        match result.error with
        | some e => some (Except.error e)
        | none => some (Except.ok result)
      else
        waitForOperationFuel poll fuel (k + 1)

/-- Embedding of `GCE.launch`: builds the instance config, issues the insert, waits on the
insert operation with `_wait_for_operation`, fetches the instance and logs its
IP.  The Python function has no return statement, so on every non-raising path
it returns `None` — never an instance handle; the `wait` argument is accepted
but never consulted, and `user_data` only triggers a warning.  Outer `none`:
the operation wait is still polling after `fuel` probes; `Except.error`: the
raise out of `_wait_for_operation`; the `Option GCEHandle` payload is the value
the call returns. -/
def launch (poll : Nat → OperationResult) (fuel : Nat)
    (image_id instance_type : String) (user_data : Option String)
    (wait : Bool) : Option (Except String (Option GCEHandle)) :=
  match waitForOperationFuel poll fuel 0 with
  | none => none
  | some (Except.error e) => some (Except.error e)
  | some (Except.ok _) => some (Except.ok none)

end GCE

/-! ## LXD: status-text parsing (`LXDInstance.state`, `LXDInstance.ephemeral`)

The output of `lxc info <name>` is text; the Python code extracts fields with
`re.findall` using the patterns `Status: (.*)` and `Type: (.*)`.
Since `.` does not match a newline, each line yields at most one match: the
capture is everything after the first occurrence of the field pattern in that
line.  Text is modelled as a list of lines, each a list of characters. -/

/-- One line of command output. -/
abbrev Line := List Char

/-- Boolean test that `l` begins with `pat`. -/
def startsWith : Line → Line → Bool
  | [], _ => true
  | _ :: _, [] => false
  | p :: ps, c :: cs => p == c && startsWith ps cs

/-- The regex scan of one line: the suffix of `l` after the first occurrence of
`pat`, if `pat` occurs in `l` (the capture of `pat ++ "(.*)"`). -/
def afterFirst (pat : Line) : Line → Option Line
  | [] => if startsWith pat [] then some [] else none
  | c :: rest =>
      if startsWith pat (c :: rest) then some ((c :: rest).drop pat.length)
      else afterFirst pat rest

/-- Predicate: `pat` occurs somewhere in `l` as a contiguous block. -/
def occursIn (pat l : Line) : Prop := ∃ s t, l = s ++ (pat ++ t)

/-- Embedding of `re.findall` over the whole text: the captures, in line
order. -/
def fieldCaptures (pat : Line) (lines : List Line) : List Line :=
  lines.filterMap (afterFirst pat)

/-- The pattern of the `Status:` field. -/
def statusPat : Line := "Status: ".toList

/-- The pattern of the `Type:` field. -/
def typePat : Line := "Type: ".toList

/-! ## LXD: lifecycle operations (`start`, `shutdown`, `restart`)

The instance operations shell out to the external `lxc` CLI.  The backend is
modelled as a world carrying the status and kind the CLI would report, and
every operation returns the updated world together with the list of backend
contacts it made, in order. -/

/-- Reported state `Running`. -/
def runningStatus : Line := "Running".toList

/-- Reported state `Stopped`. -/
def stoppedStatus : Line := "Stopped".toList

/-- The view the external LXD backend holds of one instance. -/
structure LXDWorld where
  status : Line
  instKind : Line
  deriving DecidableEq, Repr

/-- Modelled from the spec: the text output of the external `lxc info <name>`
status-query command (§6 local-process style: structured fields `Status:` and
`Type:` in text output). -/
def lxcInfo (w : LXDWorld) : List Line :=
  [statusPat ++ w.status, typePat ++ w.instKind]

/-- Modelled from the spec: backend effect of `lxc stop <name> --force` — the
instance reaches the `Stopped` state (§4.1: `Running → Stopped` via shutdown). -/
def lxcStopEffect (w : LXDWorld) : LXDWorld := { w with status := stoppedStatus }

/-- Modelled from the spec: backend effect of `lxc start <name>` — the instance
reaches the `Running` state (§4.1: `Stopped → Running` via start). -/
def lxcStartEffect (w : LXDWorld) : LXDWorld := { w with status := runningStatus }

/-- One backend contact made by an LXD instance operation. -/
inductive LXDCmd where
  /-- the command `lxc info <name>` (read-only status query, issued by
  `state`). -/
  | info
  /-- the command `lxc stop <name> --force`. -/
  | stop
  /-- the command `lxc start <name>`. -/
  | start
  /-- blocking wait for system readiness (`BaseInstance._wait_for_system`,
  modelled from the spec: blocks until the instance is reachable, issues no
  `lxc` command). -/
  | waitSystem
  deriving DecidableEq, Repr

namespace LXDInstance

/-- Embedding of `LXDInstance.state`: first `Status:` capture, `Unknown` if
there is none (the Python code catches the `IndexError` of `[0]`). -/
def state (lines : List Line) : Line :=
  match fieldCaptures statusPat lines with
  | v :: _ => v
  | [] => "Unknown".toList

/-- Embedding of `LXDInstance.ephemeral`: first `Type:` capture compared with
the word ephemeral, `False` if there is none. -/
def ephemeral (lines : List Line) : Bool :=
  match fieldCaptures typePat lines with
  | v :: _ => v == "ephemeral".toList
  | [] => false

/-- Embedding of `LXDInstance.shutdown`: return if the observed state is already `Stopped`,
else `lxc stop --force`; `wait_for_stop` is empty for LXD, so the `wait` flag
adds no backend contact. -/
def shutdown (wait : Bool) (w : LXDWorld) : LXDWorld × List LXDCmd :=
  if state (lxcInfo w) = stoppedStatus then (w, [LXDCmd.info])
  else (lxcStopEffect w, [LXDCmd.info, LXDCmd.stop])

/-- Embedding of `LXDInstance.start`: return if the observed state is already `Running`,
else `lxc start`, then wait for system readiness when `wait` is set. -/
def start (wait : Bool) (w : LXDWorld) : LXDWorld × List LXDCmd :=
  if state (lxcInfo w) = runningStatus then (w, [LXDCmd.info])
  else
    (lxcStartEffect w,
      [LXDCmd.info, LXDCmd.start] ++ if wait then [LXDCmd.waitSystem] else [])

/-- Embedding of `LXDInstance.restart`: `self.shutdown(wait=True)` then
`self.start(wait=wait)`. -/
def restart (wait : Bool) (w : LXDWorld) : LXDWorld × List LXDCmd :=
  let r1 := shutdown true w
  let r2 := start wait r1.1
  (r2.1, r1.2 ++ r2.2)

end LXDInstance

/-! ## EC2: launch argument assembly, launch, snapshot, get_or_create_vpc -/

/-- A value in the `create_instances` argument map. -/
inductive AwsVal where
  /-- a string value -/
  | s : String → AwsVal
  /-- a numeric value -/
  | n : Nat → AwsVal
  /-- a list of strings (`SecurityGroupIds`) -/
  | list : List String → AwsVal
  /-- the `TagSpecifications` entry: resource type and Key/Value tags -/
  | tagSpecs : String → List (String × String) → AwsVal
  deriving DecidableEq, Repr

/-- Python dict assignment `args[key] = value`, modelled as association-list
update: replace the binding if the key is present, append otherwise. -/
def setKey : List (String × AwsVal) → String → AwsVal → List (String × AwsVal)
  | [], k, v => [(k, v)]
  | kv :: rest, k, v =>
      if kv.1 = k then (k, v) :: rest else kv :: setKey rest k v

/-- Python dict read `args.get(key)`. -/
def getKey : List (String × AwsVal) → String → Option AwsVal
  | [], _ => none
  | kv :: rest, k => if kv.1 = k then some kv.2 else getKey rest k

/-- The last binding of `k` in a keyword-argument list (assigning the entries
one after the other lets a later duplicate win). -/
def lookupR : List (String × AwsVal) → String → Option AwsVal
  | [], _ => none
  | kv :: rest, k =>
      match lookupR rest k with
      | some v => some v
      | none => if kv.1 = k then some kv.2 else none

/-- The network context handed to `EC2.launch`.  `pycloudlib/ec2/vpc.py` is not
under src/; modelled from the spec (§3): a value object holding the vpc id and
its subnets and security groups, referenced by id when launching. -/
structure VPCModel where
  id : String
  subnets : List String
  securityGroups : List String
  deriving DecidableEq, Repr

/-- The vpc argument, when present, names exactly one subnet; otherwise
`launch` raises `RuntimeError` before contacting the backend. -/
def vpcOk : Option VPCModel → Prop
  | none => True
  | some v => ∃ s, v.subnets = [s]

namespace EC2

/-- The keys `EC2.launch` itself assembles from its named parameters. -/
def recognizedLaunchKeys : List String :=
  ["ImageId", "InstanceType", "KeyName", "MaxCount", "MinCount",
   "TagSpecifications", "UserData", "SubnetId", "SecurityGroupIds"]

/-- The first stage of argument assembly in `EC2.launch`: the recognized
arguments from the named parameters, `UserData` if given, then every caller
kwarg assigned over them in order. -/
def launchArgsPreVpc (image_id instance_type keyName tag : String)
    (user_data : Option String) (kwargs : List (String × AwsVal)) :
    List (String × AwsVal) :=
  let args : List (String × AwsVal) :=
    [("ImageId", AwsVal.s image_id), ("InstanceType", AwsVal.s instance_type),
     ("KeyName", AwsVal.s keyName), ("MaxCount", AwsVal.n 1),
     ("MinCount", AwsVal.n 1),
     ("TagSpecifications", AwsVal.tagSpecs "instance" [("Name", tag)])]
  let args :=
    match user_data with
    | some ud => setKey args "UserData" (AwsVal.s ud)
    | none => args
  kwargs.foldl (fun a kv => setKey a kv.1 kv.2) args

/-- The argument map `EC2.launch` hands to `resource.create_instances`: the
assembly above, then — when a vpc is given — `SubnetId` and
`SecurityGroupIds`; a vpc without exactly one subnet raises `RuntimeError`. -/
def launchArgs (image_id instance_type keyName tag : String)
    (user_data : Option String) (kwargs : List (String × AwsVal))
    (vpc : Option VPCModel) : Except String (List (String × AwsVal)) :=
  let args := launchArgsPreVpc image_id instance_type keyName tag user_data
    kwargs
  match vpc with
  | none => Except.ok args
  | some v =>
      match v.subnets with
      | [subnet_id] =>
          Except.ok (setKey (setKey args "SubnetId" (AwsVal.s subnet_id))
            "SecurityGroupIds" (AwsVal.list v.securityGroups))
      | _ => Except.error ("Too many subnets in vpc " ++ v.id)

end EC2

/-- The EC2 backend session state: the number the backend will use for the next
assigned instance identifier. -/
structure EC2World where
  nextNum : Nat
  deriving DecidableEq, Repr

/-- Modelled external backend call `resource.create_instances(**args)`: the
backend creates an instance and assigns it a fresh identifier. -/
def createInstances (_args : List (String × AwsVal)) (w : EC2World) :
    String × EC2World :=
  ("i-" ++ toString w.nextNum, { nextNum := w.nextNum + 1 })

/-- Modelled from the spec: the handle class `EC2Instance`
(pycloudlib/ec2/instance.py is not under src/); per §3 it carries the opaque
backend-assigned identifier, immutable once assigned. -/
structure EC2Instance where
  id : String
  deriving DecidableEq, Repr

namespace EC2

/-- Embedding of `EC2.launch`: build the argument map, call `create_instances`, wrap the
created instance in a handle; when `wait` is set the call blocks on
`instance.wait()` (modelled from the spec: readiness wait, no effect on the
handle) before returning the same handle. -/
def launch (image_id instance_type keyName tag : String)
    (user_data : Option String) (kwargs : List (String × AwsVal))
    (vpc : Option VPCModel) (wait : Bool) (w : EC2World) :
    Except String (EC2Instance × EC2World) :=
  match launchArgs image_id instance_type keyName tag user_data kwargs vpc with
  | Except.error e => Except.error e
  | Except.ok args =>
      let created := createInstances args w
      let inst : EC2Instance := { id := created.1 }
      Except.ok (inst, created.2)

end EC2

/-- One observable backend action of `EC2.snapshot`. -/
inductive EC2Op where
  /-- the call `instance.clean()` -/
  | cleanInst
  /-- the call `instance.shutdown(wait=True)` -/
  | shutdownInst
  /-- the call `client.create_image(...)` -/
  | createImage
  /-- the call `_wait_for_snapshot(image)` -/
  | waitSnapshot
  /-- the call `instance.start(wait=True)` -/
  | startInst
  deriving DecidableEq, Repr

namespace EC2

/-- Embedding of `EC2.snapshot`: optionally clean, shut the instance down waiting for the
stopped state, issue `create_image` (its outcome injected as `captureResult`),
wait for the image, restart the instance, return the image id.  There is no
handler around the capture step: its error propagates as raised, after the
stop and before any start. -/
def snapshot (clean : Bool) (captureResult : Except String String) :
    Except String String × List EC2Op :=
  let t0 := if clean then [EC2Op.cleanInst] else []
  match captureResult with
  | Except.error e =>
      (Except.error e, t0 ++ [EC2Op.shutdownInst, EC2Op.createImage])
  | Except.ok imageId =>
      (Except.ok imageId,
        t0 ++ [EC2Op.shutdownInst, EC2Op.createImage, EC2Op.waitSnapshot,
          EC2Op.startInst])

end EC2

/-- One VPC as the backend reports it: its id and its `Name` tag. -/
structure VPCRecord where
  vpcId : String
  nameTag : String
  deriving DecidableEq, Repr

/-- Backend state behind `describe_vpcs` and `VPC.create`. -/
structure EC2VpcWorld where
  vpcs : List VPCRecord
  nextVpcNum : Nat
  deriving DecidableEq, Repr

/-- Embedding of `client.describe_vpcs` filtered on the `tag:Name` filter:
the vpcs whose `Name` tag equals `name`, in backend order. -/
def describeVpcs (w : EC2VpcWorld) (name : String) : List VPCRecord :=
  w.vpcs.filter fun r => r.nameTag == name

namespace VPC

/-- Modelled from the spec: `VPC.create` (pycloudlib/ec2/vpc.py is not under
src/) — creates one new network resource tagged `Name=name` and returns a
handle to its id (§3 network context; §4.4 lookup-or-create). -/
def create (w : EC2VpcWorld) (name : String) : String × EC2VpcWorld :=
  let newId := "vpc-" ++ toString w.nextVpcNum
  (newId,
    { vpcs := w.vpcs ++ [⟨newId, name⟩], nextVpcNum := w.nextVpcNum + 1 })

end VPC

namespace EC2

/-- Embedding of `EC2.get_or_create_vpc`: describe vpcs filtered on `tag:Name`;
if any match, return a handle to the `VpcId` of the first match
(`VPC.from_existing`, modelled from the spec: a handle to the existing
resource), else create one. -/
def get_or_create_vpc (w : EC2VpcWorld) (name : String) :
    String × EC2VpcWorld :=
  match describeVpcs w name with
  | r :: _ => (r.vpcId, w)
  | [] => VPC.create w name

end EC2

end Pycloudlib

namespace Pycloudlib

/-! ## Supporting lemmas -/

theorem startsWith_iff (pat l : Line) :
    startsWith pat l = true ↔ ∃ t, l = pat ++ t := by
  induction pat generalizing l with
  | nil =>
      simp only [startsWith, List.nil_append, true_iff]
      exact ⟨l, rfl⟩
  | cons p ps ih =>
      cases l with
      | nil =>
          simp only [startsWith, Bool.false_eq_true, false_iff]
          rintro ⟨t, ht⟩
          exact List.noConfusion ht
      | cons c cs =>
          simp only [startsWith, List.cons_append, Bool.and_eq_true, beq_iff_eq, ih]
          constructor
          · rintro ⟨rfl, t, rfl⟩
            exact ⟨t, rfl⟩
          · rintro ⟨t, ht⟩
            injection ht with h1 h2
            exact ⟨h1.symm, t, h2⟩

theorem afterFirst_append_self (pat t : Line) :
    afterFirst pat (pat ++ t) = some t := by
  match pat, t with
  | [], [] => rfl
  | [], c :: cs =>
      simp [afterFirst, startsWith]
  | p :: ps, t =>
      have hsw : startsWith (p :: ps) (p :: (ps ++ t)) = true :=
        (startsWith_iff _ _).2 ⟨t, (List.cons_append p ps t).symm⟩
      rw [List.cons_append, afterFirst, if_pos hsw, ← List.cons_append,
        List.drop_left]

theorem afterFirst_eq_none_of_not_occurs (pat l : Line) (h : ¬ occursIn pat l) :
    afterFirst pat l = none := by
  induction l with
  | nil =>
      rw [afterFirst, if_neg]
      intro hs
      obtain ⟨t, ht⟩ := (startsWith_iff pat []).1 hs
      exact h ⟨[], t, by simpa using ht⟩
  | cons c cs ih =>
      rw [afterFirst, if_neg]
      · exact ih fun ⟨s, t, hst⟩ => h ⟨c :: s, t, by simp [hst]⟩
      · intro hs
        obtain ⟨t, ht⟩ := (startsWith_iff _ _).1 hs
        exact h ⟨[], t, by simpa using ht⟩

theorem afterFirst_occurs_ne_none (pat s t : Line) :
    afterFirst pat (s ++ (pat ++ t)) ≠ none := by
  induction s with
  | nil => simp [afterFirst_append_self]
  | cons c s' ih =>
      rw [List.cons_append, afterFirst]
      by_cases h : startsWith pat (c :: (s' ++ (pat ++ t))) = true
      · simp [h]
      · simpa [h] using ih

theorem not_occurs_of_afterFirst_eq_none (pat l : Line)
    (h : afterFirst pat l = none) : ¬ occursIn pat l := by
  rintro ⟨s, t, rfl⟩
  exact afterFirst_occurs_ne_none pat s t h

theorem fieldCaptures_eq_nil (pat : Line) (lines : List Line)
    (h : ∀ l ∈ lines, ¬ occursIn pat l) : fieldCaptures pat lines = [] := by
  rw [fieldCaptures, List.filterMap_eq_nil_iff]
  exact fun a ha => afterFirst_eq_none_of_not_occurs pat a (h a ha)

/-- Reading the modelled `lxc info` output through the text parser recovers the
status held by the backend. -/
theorem state_lxcInfo (w : LXDWorld) :
    LXDInstance.state (lxcInfo w) = w.status := by
  rw [LXDInstance.state, lxcInfo, fieldCaptures, List.filterMap_cons,
    afterFirst_append_self]

theorem getKey_setKey (m : List (String × AwsVal)) (k k' : String) (v : AwsVal) :
    getKey (setKey m k v) k' = if k = k' then some v else getKey m k' := by
  induction m with
  | nil =>
      by_cases h : k = k' <;> simp [setKey, getKey, h]
  | cons kv rest ih =>
      rw [setKey]
      by_cases h : kv.1 = k
      · rw [if_pos h, getKey]
        by_cases h' : k = k'
        · rw [if_pos h', if_pos h']
        · rw [if_neg h', if_neg h', getKey,
            if_neg (fun hh => h' (h.symm.trans hh))]
      · rw [if_neg h, getKey]
        by_cases h2 : kv.1 = k'
        · rw [if_pos h2, getKey, if_pos h2,
            if_neg (fun hh => h (h2.trans hh.symm))]
        · rw [if_neg h2, ih, getKey, if_neg h2]

theorem getKey_foldl_setKey (kwargs args : List (String × AwsVal)) (k : String) :
    getKey (kwargs.foldl (fun a kv => setKey a kv.1 kv.2) args) k =
      match lookupR kwargs k with
      | some v => some v
      | none => getKey args k := by
  induction kwargs generalizing args with
  | nil => simp [lookupR]
  | cons kv rest ih =>
      rw [List.foldl_cons, ih, lookupR]
      cases hr : lookupR rest k with
      | some v => rfl
      | none =>
          rw [getKey_setKey]
          by_cases h : kv.1 = k <;> simp [h]

/-- A caller-supplied kwarg survives the pre-vpc assembly with its given
value. -/
theorem getKey_launchArgsPreVpc (image_id instance_type keyName tag : String)
    (user_data : Option String) (kwargs : List (String × AwsVal))
    (k : String) (v : AwsVal) (hkv : lookupR kwargs k = some v) :
    getKey (EC2.launchArgsPreVpc image_id instance_type keyName tag user_data
      kwargs) k = some v := by
  simp only [EC2.launchArgsPreVpc]
  rw [getKey_foldl_setKey, hkv]

/-- Evaluation of `launchArgs` with a single-subnet vpc: the final map is the pre-vpc map
with `SubnetId` and `SecurityGroupIds` assigned last. -/
theorem launchArgs_some_vpc (image_id instance_type keyName tag : String)
    (user_data : Option String) (kwargs : List (String × AwsVal))
    (vp : VPCModel) (s : String) (hs : vp.subnets = [s]) :
    EC2.launchArgs image_id instance_type keyName tag user_data kwargs
        (some vp) =
      Except.ok (setKey (setKey (EC2.launchArgsPreVpc image_id instance_type
        keyName tag user_data kwargs) "SubnetId" (AwsVal.s s))
        "SecurityGroupIds" (AwsVal.list vp.securityGroups)) := by
  rw [EC2.launchArgs, hs]

end Pycloudlib

namespace Pycloudlib

/-! ## Claim theorems -/

/-- C1: with an observe that never reports the terminal status, the GCE polling
loop is still running after any number of iterations: no amount of fuel makes
`_wait_for_operation` return or raise, because the loop has no deadline. -/
theorem waitForOperation_never_done_never_returns (poll : Nat → OperationResult)
    (h : ∀ k, (poll k).status ≠ "DONE") (fuel k : Nat) :
    GCE.waitForOperationFuel poll fuel k = none := by
  induction fuel generalizing k with
  | zero => rfl
  | succ n ih =>
      simp only [GCE.waitForOperationFuel, if_neg (h k)]
      exact ih (k + 1)

/-- Witness for the C1 theorem at a concrete never-DONE poll sequence. -/
theorem waitForOperation_never_done_never_returns_witness :
    GCE.waitForOperationFuel (fun _ => ⟨"RUNNING", none⟩) 100 0 = none :=
  waitForOperation_never_done_never_returns (fun _ => ⟨"RUNNING", none⟩)
    (by intro k; show ("RUNNING" : String) ≠ "DONE"; decide) 100 0

/-- C7: when the polled result reaches the terminal status `DONE`, the wait
surfaces a present error field as a raised error carrying that field, and
returns the result normally when no error field is present. -/
theorem waitForOperation_terminal_error_handling (poll : Nat → OperationResult)
    (fuel k : Nat) (hdone : (poll k).status = "DONE") :
    (∀ e, (poll k).error = some e →
        GCE.waitForOperationFuel poll (fuel + 1) k = some (Except.error e)) ∧
    ((poll k).error = none →
        GCE.waitForOperationFuel poll (fuel + 1) k = some (Except.ok (poll k))) := by
  constructor
  · intro e he
    simp [GCE.waitForOperationFuel, hdone, he]
  · intro he
    simp [GCE.waitForOperationFuel, hdone, he]

/-- Witness for the C7 theorem: a poll that is DONE immediately, once with an
error field and once without. -/
theorem waitForOperation_terminal_error_handling_witness :
    GCE.waitForOperationFuel (fun _ => ⟨"DONE", some "boom"⟩) 1 0 =
        some (Except.error "boom") ∧
    GCE.waitForOperationFuel (fun _ => ⟨"DONE", none⟩) 1 0 =
        some (Except.ok ⟨"DONE", none⟩) :=
  ⟨(waitForOperation_terminal_error_handling (fun _ => ⟨"DONE", some "boom"⟩) 0 0
      (by decide)).1 "boom" (by decide),
   (waitForOperation_terminal_error_handling (fun _ => ⟨"DONE", none⟩) 0 0
      (by decide)).2 (by decide)⟩

/-- C6: the state observation returns the value of the `Status:` field when one
is present (the capture of the first line holding the field), returns the
string `Unknown` when no line holds a `Status:` field, and the ephemeral
observation returns `false` when no line holds a `Type:` field — none of the
three raises. -/
theorem lxd_state_and_ephemeral_degrade
    (pre post : List Line) (v : Line) (lines lines2 : List Line)
    (hpre : ∀ l ∈ pre, ¬ occursIn statusPat l)
    (habs : ∀ l ∈ lines, ¬ occursIn statusPat l)
    (htype : ∀ l ∈ lines2, ¬ occursIn typePat l) :
    LXDInstance.state (pre ++ (statusPat ++ v) :: post) = v ∧
    LXDInstance.state lines = "Unknown".toList ∧
    LXDInstance.ephemeral lines2 = false := by
  refine ⟨?_, ?_, ?_⟩
  · rw [LXDInstance.state, fieldCaptures, List.filterMap_append]
    have hnil : List.filterMap (afterFirst statusPat) pre = [] :=
      fieldCaptures_eq_nil statusPat pre hpre
    rw [hnil, List.nil_append, List.filterMap_cons, afterFirst_append_self]
  · rw [LXDInstance.state, fieldCaptures_eq_nil statusPat lines habs]
  · rw [LXDInstance.ephemeral, fieldCaptures_eq_nil typePat lines2 htype]

/-- Witness for the C6 theorem on concrete `lxc info` style output. -/
theorem lxd_state_and_ephemeral_degrade_witness :
    LXDInstance.state
        (["Name: vm1".toList] ++ (statusPat ++ "Running".toList) :: []) =
      "Running".toList ∧
    LXDInstance.state ["Name: vm1".toList, "garbage".toList] =
      "Unknown".toList ∧
    LXDInstance.ephemeral ["Name: vm1".toList] = false :=
  lxd_state_and_ephemeral_degrade
    ["Name: vm1".toList] [] "Running".toList
    ["Name: vm1".toList, "garbage".toList] ["Name: vm1".toList]
    (by
      intro l hl
      simp only [List.mem_singleton] at hl
      subst hl
      exact not_occurs_of_afterFirst_eq_none _ _ (by decide))
    (by
      intro l hl
      simp only [List.mem_cons, List.mem_singleton] at hl
      rcases hl with rfl | rfl | h
      · exact not_occurs_of_afterFirst_eq_none _ _ (by decide)
      · exact not_occurs_of_afterFirst_eq_none _ _ (by decide)
      · cases h)
    (by
      intro l hl
      simp only [List.mem_singleton] at hl
      subst hl
      exact not_occurs_of_afterFirst_eq_none _ _ (by decide))

/-- C3 counterexample: on an instance observed `Running`, `start` is not free
of backend contact — it issues the `lxc info` status query, so its command
trace is not empty (and symmetrically for `shutdown` on a `Stopped`
instance). -/
theorem start_on_running_contacts_backend :
    (LXDInstance.start true ⟨runningStatus, "container".toList⟩).2 ≠ [] ∧
    (LXDInstance.shutdown true ⟨stoppedStatus, "container".toList⟩).2 ≠ [] := by
  constructor <;> decide

/-- C3 (amended): `start` on an instance observed `Running`, and `shutdown` on
an instance observed `Stopped`, return success leaving the backend untouched
and issue no state-mutating backend command — the only backend contact is the
read-only `lxc info` status query. -/
theorem start_shutdown_noop_when_already_there (wait : Bool) (w w' : LXDWorld)
    (h : LXDInstance.state (lxcInfo w) = runningStatus)
    (h' : LXDInstance.state (lxcInfo w') = stoppedStatus) :
    LXDInstance.start wait w = (w, [LXDCmd.info]) ∧
    LXDInstance.shutdown wait w' = (w', [LXDCmd.info]) := by
  constructor
  · rw [LXDInstance.start, if_pos h]
  · rw [LXDInstance.shutdown, if_pos h']

/-- Witness for the amended C3 theorem on concrete worlds. -/
theorem start_shutdown_noop_when_already_there_witness :
    LXDInstance.start true ⟨runningStatus, "container".toList⟩ =
      (⟨runningStatus, "container".toList⟩, [LXDCmd.info]) ∧
    LXDInstance.shutdown true ⟨stoppedStatus, "container".toList⟩ =
      (⟨stoppedStatus, "container".toList⟩, [LXDCmd.info]) :=
  start_shutdown_noop_when_already_there true
    ⟨runningStatus, "container".toList⟩ ⟨stoppedStatus, "container".toList⟩
    (by decide) (by decide)

/-- C5: `restart` is observably the composition of the exported operations —
the world it leaves and the commands it issues are exactly those of
`shutdown(wait=True)` followed by `start(wait)`, and the intermediate world
really is in the quiescent `Stopped` state. -/
theorem restart_is_shutdown_then_start (wait : Bool) (w : LXDWorld) :
    LXDInstance.restart wait w =
      ((LXDInstance.start wait (LXDInstance.shutdown true w).1).1,
        (LXDInstance.shutdown true w).2 ++
          (LXDInstance.start wait (LXDInstance.shutdown true w).1).2) ∧
    LXDInstance.state (lxcInfo (LXDInstance.shutdown true w).1) = stoppedStatus := by
  refine ⟨rfl, ?_⟩
  by_cases h : LXDInstance.state (lxcInfo w) = stoppedStatus
  · rw [LXDInstance.shutdown, if_pos h]
    exact h
  · rw [LXDInstance.shutdown, if_neg h]
    rw [state_lxcInfo]
    rfl

/-- C2 counterexample: with the insert operation immediately terminal and
error-free, `GCE.launch` returns without raising — and the value it returns is
`None`, not an instance handle. -/
theorem gce_launch_returns_no_handle :
    GCE.launch (fun _ => ⟨"DONE", none⟩) 1 "img" "n1-standard-1" none true =
      some (Except.ok none) ∧
    ¬ ∃ h : GCEHandle,
        GCE.launch (fun _ => ⟨"DONE", none⟩) 1 "img" "n1-standard-1" none true =
          some (Except.ok (some h)) := by
  constructor
  · rfl
  · rintro ⟨h, hh⟩
    have h2 : (some (Except.ok (some h)) :
        Option (Except String (Option GCEHandle))) = some (Except.ok none) :=
      hh.symm.trans rfl
    simp at h2

/-- C2 (amended): `EC2.launch` — with a well-formed vpc argument — returns, for
`wait` set or unset alike, a handle carrying the identifier the backend
assigned to the created instance; `GCE.launch` returns no handle. -/
theorem ec2_launch_returns_assigned_handle
    (image_id instance_type keyName tag : String) (user_data : Option String)
    (kwargs : List (String × AwsVal)) (vpc : Option VPCModel) (wait : Bool)
    (w : EC2World) (hvpc : vpcOk vpc) :
    ∃ w', EC2.launch image_id instance_type keyName tag user_data kwargs vpc
        wait w = Except.ok (⟨"i-" ++ toString w.nextNum⟩, w') := by
  obtain ⟨args, hargs⟩ : ∃ args,
      EC2.launchArgs image_id instance_type keyName tag user_data kwargs vpc =
        Except.ok args := by
    cases vpc with
    | none => exact ⟨_, rfl⟩
    | some v =>
        obtain ⟨s, hs⟩ := hvpc
        exact ⟨_, launchArgs_some_vpc image_id instance_type keyName tag
          user_data kwargs v s hs⟩
  exact ⟨_, by rw [EC2.launch, hargs]; rfl⟩

/-- Witness for the amended C2 theorem at a concrete launch. -/
theorem ec2_launch_returns_assigned_handle_witness :
    ∃ w', EC2.launch "ami-1" "t2.micro" "key" "tag" none [] none true ⟨0⟩ =
      Except.ok (⟨"i-" ++ toString (0 : Nat)⟩, w') :=
  ec2_launch_returns_assigned_handle "ami-1" "t2.micro" "key" "tag" none []
    none true ⟨0⟩ trivial

/-- C4 counterexample: with a failing capture step, `snapshot` stops the
instance, propagates the capture error, and never issues a start — the source
instance is left stopped. -/
theorem snapshot_capture_failure_leaves_stopped :
    (EC2.snapshot true (Except.error "InternalError")).1 =
      Except.error "InternalError" ∧
    EC2Op.shutdownInst ∈ (EC2.snapshot true (Except.error "InternalError")).2 ∧
    EC2Op.startInst ∉ (EC2.snapshot true (Except.error "InternalError")).2 := by
  refine ⟨rfl, ?_, ?_⟩ <;> decide

/-- C4 (amended): `EC2.snapshot` restarts the source instance only on the
success path: a successful capture ends by starting the instance again, while a
failed capture propagates the error with no start attempted after the stop. -/
theorem snapshot_restart_only_on_success (clean : Bool) (e imageId : String) :
    ((EC2.snapshot clean (Except.error e)).1 = Except.error e ∧
      EC2Op.startInst ∉ (EC2.snapshot clean (Except.error e)).2) ∧
    ((EC2.snapshot clean (Except.ok imageId)).1 = Except.ok imageId ∧
      EC2Op.startInst ∈ (EC2.snapshot clean (Except.ok imageId)).2) := by
  cases clean <;> refine ⟨⟨rfl, ?_⟩, rfl, ?_⟩ <;> simp [EC2.snapshot]

/-- C8: an option key not among the recognized launch keys is passed through
verbatim — it is present in the final argument map with its given value — and
no unrecognized key makes the call reject: the map is still produced. -/
theorem launch_passes_unrecognized_options
    (image_id instance_type keyName tag : String) (user_data : Option String)
    (kwargs : List (String × AwsVal)) (vpc : Option VPCModel)
    (k : String) (v : AwsVal)
    (hk : k ∉ EC2.recognizedLaunchKeys) (hkv : lookupR kwargs k = some v)
    (hvpc : vpcOk vpc) :
    ∃ args,
      EC2.launchArgs image_id instance_type keyName tag user_data kwargs vpc =
        Except.ok args ∧ getKey args k = some v := by
  simp only [EC2.recognizedLaunchKeys, List.mem_cons, List.not_mem_nil,
    or_false, not_or] at hk
  obtain ⟨h1, h2, h3, h4, h5, h6, h7, h8, h9⟩ := hk
  cases vpc with
  | none =>
      exact ⟨_, rfl, getKey_launchArgsPreVpc image_id instance_type keyName tag
        user_data kwargs k v hkv⟩
  | some vp =>
      obtain ⟨s, hs⟩ := hvpc
      refine ⟨_, launchArgs_some_vpc image_id instance_type keyName tag
        user_data kwargs vp s hs, ?_⟩
      rw [getKey_setKey, if_neg (fun hh => h9 hh.symm), getKey_setKey,
        if_neg (fun hh => h8 hh.symm),
        getKey_launchArgsPreVpc image_id instance_type keyName tag user_data
          kwargs k v hkv]

/-- Witness for the C8 theorem: an unrecognized `Placement` kwarg passed through
a launch into a one-subnet vpc. -/
theorem launch_passes_unrecognized_options_witness :
    ∃ args,
      EC2.launchArgs "ami-1" "t2.micro" "key" "tag" none
          [("Placement", AwsVal.s "us-east-1a")]
          (some ⟨"vpc-1", ["subnet-1"], ["sg-1"]⟩) =
        Except.ok args ∧ getKey args "Placement" = some (AwsVal.s "us-east-1a") :=
  launch_passes_unrecognized_options "ami-1" "t2.micro" "key" "tag" none
    [("Placement", AwsVal.s "us-east-1a")]
    (some ⟨"vpc-1", ["subnet-1"], ["sg-1"]⟩) "Placement"
    (AwsVal.s "us-east-1a") (by decide) (by decide) ⟨"subnet-1", rfl⟩

/-- C10: kwargs are assigned after the recognized arguments, so a kwargs entry
for any key other than `SubnetId`/`SecurityGroupIds` — in particular a
recognized key such as `ImageId` — silently replaces the value derived from
the named parameters; and when a vpc is given, `SubnetId` and
`SecurityGroupIds` are assigned after that loop, overriding any
caller-supplied values for those two keys. -/
theorem launch_kwargs_applied_after_named_args
    (image_id instance_type keyName tag : String) (user_data : Option String)
    (kwargs : List (String × AwsVal)) (k : String) (v : AwsVal)
    (vp : VPCModel) (s : String)
    (hk1 : k ≠ "SubnetId") (hk2 : k ≠ "SecurityGroupIds")
    (hkv : lookupR kwargs k = some v) (hs : vp.subnets = [s]) :
    (∃ args,
      EC2.launchArgs image_id instance_type keyName tag user_data kwargs none =
        Except.ok args ∧ getKey args k = some v) ∧
    (∃ args,
      EC2.launchArgs image_id instance_type keyName tag user_data kwargs
          (some vp) = Except.ok args ∧
        getKey args k = some v ∧
        getKey args "SubnetId" = some (AwsVal.s s) ∧
        getKey args "SecurityGroupIds" =
          some (AwsVal.list vp.securityGroups)) := by
  constructor
  · exact ⟨_, rfl, getKey_launchArgsPreVpc image_id instance_type keyName tag
      user_data kwargs k v hkv⟩
  · refine ⟨_, launchArgs_some_vpc image_id instance_type keyName tag user_data
      kwargs vp s hs, ?_, ?_, ?_⟩
    · rw [getKey_setKey, if_neg (fun hh => hk2 hh.symm), getKey_setKey,
        if_neg (fun hh => hk1 hh.symm),
        getKey_launchArgsPreVpc image_id instance_type keyName tag user_data
          kwargs k v hkv]
    · rw [getKey_setKey, if_neg (by decide), getKey_setKey, if_pos rfl]
    · rw [getKey_setKey, if_pos rfl]

/-- Witness for the C10 theorem: a caller `ImageId` kwarg overriding the named
image, and a caller `SubnetId` kwarg overridden in turn by the vpc. -/
theorem launch_kwargs_applied_after_named_args_witness :
    (∃ args,
      EC2.launchArgs "ami-1" "t2.micro" "key" "tag" none
          [("ImageId", AwsVal.s "ami-2"), ("SubnetId", AwsVal.s "subnet-kw")]
          none =
        Except.ok args ∧ getKey args "ImageId" = some (AwsVal.s "ami-2")) ∧
    (∃ args,
      EC2.launchArgs "ami-1" "t2.micro" "key" "tag" none
          [("ImageId", AwsVal.s "ami-2"), ("SubnetId", AwsVal.s "subnet-kw")]
          (some ⟨"vpc-1", ["subnet-real"], ["sg-1"]⟩) = Except.ok args ∧
        getKey args "ImageId" = some (AwsVal.s "ami-2") ∧
        getKey args "SubnetId" = some (AwsVal.s "subnet-real") ∧
        getKey args "SecurityGroupIds" = some (AwsVal.list ["sg-1"])) :=
  launch_kwargs_applied_after_named_args "ami-1" "t2.micro" "key" "tag" none
    [("ImageId", AwsVal.s "ami-2"), ("SubnetId", AwsVal.s "subnet-kw")]
    "ImageId" (AwsVal.s "ami-2") ⟨"vpc-1", ["subnet-real"], ["sg-1"]⟩
    "subnet-real" (by decide) (by decide) (by decide) rfl

/-- C9: `get_or_create_vpc` is idempotent by name: the second call returns the
same vpc id as the first, changes nothing, and across both calls at most one
vpc is created. -/
theorem get_or_create_vpc_idempotent (w : EC2VpcWorld) (name : String) :
    (EC2.get_or_create_vpc (EC2.get_or_create_vpc w name).2 name).1 =
      (EC2.get_or_create_vpc w name).1 ∧
    (EC2.get_or_create_vpc (EC2.get_or_create_vpc w name).2 name).2 =
      (EC2.get_or_create_vpc w name).2 ∧
    (EC2.get_or_create_vpc w name).2.vpcs.length ≤ w.vpcs.length + 1 := by
  cases hd : describeVpcs w name with
  | cons r rest =>
      refine ⟨?_, ?_, ?_⟩ <;> simp [EC2.get_or_create_vpc, hd]
  | nil =>
      rw [describeVpcs] at hd
      have hfil : describeVpcs (VPC.create w name).2 name =
          [⟨"vpc-" ++ toString w.nextVpcNum, name⟩] := by
        rw [describeVpcs, VPC.create]
        simp [List.filter_append, hd]
      refine ⟨?_, ?_, ?_⟩ <;>
        simp [EC2.get_or_create_vpc, describeVpcs, hd, hfil, VPC.create]

end Pycloudlib
